import Mathlib

/-!
Verification of the `Time` value type from `oop_time.py`.

The Python class stores a single field `_total_seconds` (an unbounded
integer) and exposes validated constructors (`__init__`, `from_seconds`,
`from_string`), derived component accessors, modular arithmetic
(`__add__`, `__sub__`), equality/ordering dunders (with
`functools.total_ordering` deriving `__le__`, `__gt__`, `__ge__`), and
string rendering (`__str__`).

Python errors are modelled by the inductive type `Err`:
* `ValueError` messages of the shape `"<name> must be between <lo>-<hi>,
  got <value>"` (from `_validate_range`) and the analogous message of
  `from_seconds` become `Err.range name lo hi value`;
* the `ValueError("Time string must be in HH:MM:SS format") from e`
  raised by `from_string` becomes `Err.format cause`, where `cause`
  models Python's `__cause__` chain: `some e` when the caught exception
  `e` was one of the `Time` class's own range errors, `none` when it was
  a builtin error (tuple-unpack arity failure or an `int()` parse
  failure);
* `TypeError` from the arithmetic dunders becomes `Err.typeErr`.

Python's `//` and `%` are floored division and modulo; every divisor in
the source (3600, 60, 86400) is positive, so they coincide with Lean's
Euclidean `/` and `%` on `Int`, which are used throughout.
-/

/-- Errors raised by the `Time` class, as structured values. -/
inductive Err where
  | range (field : String) (lo hi value : Int)
  | format (cause : Option Err)
  | typeErr (op : String) (typeName : String)

/-- Predicate picking out the range-error constructor. -/
def Err.isRange : Err → Bool
  | Err.range _ _ _ _ => true
  | _ => false

/-- Model of a Python `Time` instance: `__slots__` restricts it to the
single field `_total_seconds` (named without the underscore here). -/
structure Time where
  total_seconds : Int
deriving DecidableEq

/-- Invariant established by every constructor of the class: the stored
second count lies in `[0, 86400)`. -/
def Time.valid (t : Time) : Prop :=
  0 ≤ t.total_seconds ∧ t.total_seconds < 86400

instance (t : Time) : Decidable (Time.valid t) := by
  unfold Time.valid; infer_instance

/-- Model of `Time._validate_range(value, min_val, max_val, name)`:
raises `ValueError(f"{name} must be between {min_val}-{max_val}, got
{value}")` unless `min_val <= value <= max_val`. -/
def Time.validate_range (value lo hi : Int) (name : String) : Except Err Unit :=
  if lo ≤ value ∧ value ≤ hi then Except.ok ()
  else Except.error (Err.range name lo hi value)

/-- Model of `Time.__init__(self, hours, minutes, seconds)`: validates
hours in 0..23, then minutes in 0..59, then seconds in 0..59, in that
order, and stores `hours * 3600 + minutes * 60 + seconds`. -/
def Time.init (hours minutes seconds : Int) : Except Err Time :=
  match Time.validate_range hours 0 23 "hours" with
  | Except.error e => Except.error e
  | Except.ok _ =>
    match Time.validate_range minutes 0 59 "minutes" with
    | Except.error e => Except.error e
    | Except.ok _ =>
      match Time.validate_range seconds 0 59 "seconds" with
      | Except.error e => Except.error e
      | Except.ok _ => Except.ok ⟨hours * 3600 + minutes * 60 + seconds⟩

/-- Model of calling `Time()` with no arguments: the Python signature is
`__init__(self, hours: int = 0, minutes: int = 0, seconds: int = 0)`, so
all three components default to 0. -/
def Time.initDefault : Except Err Time :=
  Time.init 0 0 0

/-- Model of the `hours` property: `self._total_seconds // 3600`. -/
def Time.hours (t : Time) : Int :=
  t.total_seconds / 3600

/-- Model of the `minutes` property: `(self._total_seconds % 3600) // 60`. -/
def Time.minutes (t : Time) : Int :=
  t.total_seconds % 3600 / 60

/-- Model of the `seconds` property: `self._total_seconds % 60`. -/
def Time.seconds (t : Time) : Int :=
  t.total_seconds % 60

/-- Model of `Time.from_seconds(total_seconds)`: checks
`0 <= total_seconds < 86400`, then delegates to `__init__` with the
decomposed components. -/
def Time.from_seconds (total_seconds : Int) : Except Err Time :=
  if 0 ≤ total_seconds ∧ total_seconds < 86400 then
    Time.init (total_seconds / 3600) (total_seconds % 3600 / 60) (total_seconds % 60)
  else
    Except.error (Err.range "total seconds" 0 86399 total_seconds)

/-- Model of `Time.to_seconds(self)`. -/
def Time.to_seconds (t : Time) : Int :=
  t.total_seconds

/-- Model of `Time.to_tuple(self)`: `(self.hours, self.minutes,
self.seconds)`. -/
def Time.to_tuple (t : Time) : Int × Int × Int :=
  (t.hours, t.minutes, t.seconds)

/-- Universe of Python operand values appearing in the dunder methods:
a `Time`, an `int`, or a representative non-`Time`-non-`int` builtin
(`str`, `None`). -/
inductive PyValue where
  | timeVal (t : Time)
  | intVal (n : Int)
  | strVal (s : String)
  | noneVal
deriving DecidableEq

/-- Discriminator for the `isinstance(other, Time)` check. -/
def PyValue.isTimeVal : PyValue → Bool
  | PyValue.timeVal _ => true
  | _ => false

/-- Seconds contributed by an operand accepted by `__add__`/`__sub__`:
the operand's `_total_seconds` for a `Time`, the integer itself for an
`int`; `none` for operands that raise `TypeError`. -/
def operandSeconds : PyValue → Option Int
  | PyValue.timeVal u => some u.total_seconds
  | PyValue.intVal n => some n
  | _ => none

/-- Model of `Time.__add__(self, other)`: dispatches on the operand's
runtime type, computes `(self._total_seconds + other_seconds) % 86400`,
and rebuilds the result through `from_seconds`. -/
def Time.add (t : Time) (other : PyValue) : Except Err Time :=
  match other with
  | PyValue.timeVal u => Time.from_seconds ((t.total_seconds + u.total_seconds) % 86400)
  | PyValue.intVal n => Time.from_seconds ((t.total_seconds + n) % 86400)
  | PyValue.strVal _ => Except.error (Err.typeErr "+" "str")
  | PyValue.noneVal => Except.error (Err.typeErr "+" "NoneType")

/-- Model of `Time.__sub__(self, other)`: symmetric to `__add__` with
`(self._total_seconds - other_seconds) % 86400`. -/
def Time.sub (t : Time) (other : PyValue) : Except Err Time :=
  match other with
  | PyValue.timeVal u => Time.from_seconds ((t.total_seconds - u.total_seconds) % 86400)
  | PyValue.intVal n => Time.from_seconds ((t.total_seconds - n) % 86400)
  | PyValue.strVal _ => Except.error (Err.typeErr "-" "str")
  | PyValue.noneVal => Except.error (Err.typeErr "-" "NoneType")

/-- Model of Python's `str.split` with the one-character separator
`':'`: every occurrence splits, empty fields are kept, and the empty
string yields `[[]]` (Python: `"".split(':') == ['']`). -/
def splitCh (sep : Char) : List Char → List (List Char)
  | [] => [[]]
  | c :: rest =>
    if c = sep then [] :: splitCh sep rest
    else
      match splitCh sep rest with
      | [] => [[c]]
      | f :: fs => (c :: f) :: fs

/-- Whitespace stripped by Python's `int(str)` before parsing (the ASCII
portion; non-ASCII whitespace and non-ASCII digits are out of scope of
this model, matching the spec's assumption of a host-library parsing
facility over the formats actually exercised). -/
def isPySpace (c : Char) : Bool :=
  c = ' ' || c = '\t' || c = '\n' || c = '\r' || c = '\x0b' || c = '\x0c'

/-- Strip leading and trailing whitespace, as `int(str)` does. -/
def stripPySpace (l : List Char) : List Char :=
  ((l.dropWhile isPySpace).reverse.dropWhile isPySpace).reverse

/-- Recogniser for the tail of a Python integer literal body after its
first digit: digits, optionally in groups separated by single
underscores (`int("1_2") == 12`, while `int("1__2")` and `int("1_")`
fail). -/
def digitsTail : List Char → Bool
  | [] => true
  | '_' :: c :: rest => c.isDigit && digitsTail rest
  | c :: rest => c.isDigit && digitsTail rest

/-- Recogniser for a full Python integer literal body: nonempty, starts
with a digit, then `digitsTail`. -/
def digitsOk : List Char → Bool
  | [] => false
  | c :: rest => c.isDigit && digitsTail rest

/-- Decimal value of a digit sequence, skipping group underscores. -/
def digitsValue (l : List Char) : Nat :=
  l.foldl (fun acc c => if c = '_' then acc else acc * 10 + (c.toNat - 48)) 0

/-- Model of Python's `int(field)` on one split field: strip
whitespace, accept one optional sign, then a digit body; `none` models
the `ValueError` raised on malformed text. -/
def pyParseIntL (l : List Char) : Option Int :=
  match stripPySpace l with
  | '+' :: rest => if digitsOk rest then some (Int.ofNat (digitsValue rest)) else none
  | '-' :: rest => if digitsOk rest then some (-(Int.ofNat (digitsValue rest))) else none
  | core => if digitsOk core then some (Int.ofNat (digitsValue core)) else none

/-- Model of `hours, minutes, seconds = map(int, time_str.split(':'))`:
`some (h, m, s)` when the split yields exactly three fields and all
three parse as integers; `none` models the builtin `ValueError` (from
unpacking or from `int()`) that the `except` clause catches. -/
def parsedFields (s : String) : Option (Int × Int × Int) :=
  match (splitCh ':' s.toList).map pyParseIntL with
  | [some a, some b, some c] => some (a, b, c)
  | _ => none

/-- Model of `Time.from_string(time_str)`. The `try` block covers both
the parsing and the `cls(hours, minutes, seconds)` call, and the
`except (ValueError, AttributeError)` clause re-raises every caught
exception as `ValueError("Time string must be in HH:MM:SS format")
from e`; so a range error raised by `__init__` is also replaced by the
format error, surviving only as its `__cause__` (`Err.format (some e)`),
while builtin parse or unpack errors leave no `Time`-level cause
(`Err.format none`). -/
def Time.from_string (s : String) : Except Err Time :=
  match parsedFields s with
  | some (h, m, sec) =>
    match Time.init h m sec with
    | Except.ok t => Except.ok t
    | Except.error e => Except.error (Err.format (some e))
  | none => Except.error (Err.format none)

/-- Model of the f-string field `f"{n:02d}"`: the decimal rendering of
`n`, left-padded with `'0'` to width 2. (For width 2 the pad triggers
only for a single nonnegative digit, so sign placement never matters.) -/
def format02d (n : Int) : String :=
  let s := toString n
  if s.length < 2 then "0" ++ s else s

/-- Model of `Time.__str__(self)`:
`f"{self.hours:02d}:{self.minutes:02d}:{self.seconds:02d}"`. -/
def Time.toString (t : Time) : String :=
  format02d t.hours ++ ":" ++ format02d t.minutes ++ ":" ++ format02d t.seconds

/-- Check, for one `k`, everything the proofs need about a two-digit
rendered field: length, digit content, decimal value, and that
`pyParseIntL` reads it back. -/
def fmtCheck (k : Nat) : Bool :=
  ((format02d (Int.ofNat k)).toList.length == 2) &&
    (format02d (Int.ofNat k)).toList.all Char.isDigit &&
    (digitsValue (format02d (Int.ofNat k)).toList == k) &&
    (pyParseIntL (format02d (Int.ofNat k)).toList == some (Int.ofNat k))

/-- Whether a call outcome is a raised range error (at the top level of
the raised exception, not in its cause chain). -/
def raisedRangeError (r : Except Err Time) : Bool :=
  match r with
  | Except.error e => Err.isRange e
  | Except.ok _ => false

/-- Result of a Python comparison dunder: a `bool`, or the
`NotImplemented` sentinel. -/
inductive DunderResult where
  | boolRes (b : Bool)
  | notImplementedRes
deriving DecidableEq

/-- Model of `Time.__eq__(self, other)`: `NotImplemented` unless the
operand is a `Time`, else comparison of the stored second counts. -/
def Time.eqMeth (t : Time) (v : PyValue) : DunderResult :=
  match v with
  | PyValue.timeVal u => DunderResult.boolRes (decide (t.total_seconds = u.total_seconds))
  | _ => DunderResult.notImplementedRes

/-- Outcome of the full `==` protocol with a `Time` on the left: when
`Time.__eq__` answers `NotImplemented`, the builtin right-hand types in
`PyValue` also answer `NotImplemented` for a `Time` operand, and Python
falls back to identity, which is `False` for distinct objects — never
an exception. -/
def timeEqOutcome (t : Time) (v : PyValue) : Bool :=
  match Time.eqMeth t v with
  | DunderResult.boolRes b => b
  | DunderResult.notImplementedRes => false

/-- Model of `Time.__lt__(self, other)`: `NotImplemented` unless the
operand is a `Time`. -/
def Time.ltMeth (t : Time) (v : PyValue) : DunderResult :=
  match v with
  | PyValue.timeVal u => DunderResult.boolRes (decide (t.total_seconds < u.total_seconds))
  | _ => DunderResult.notImplementedRes

/-- Model of the `__le__` derived by `functools.total_ordering` from
`__lt__` and `__eq__` (`_le_from_lt`): pass `NotImplemented` through,
else `self < other or self == other`. -/
def Time.leMeth (t : Time) (v : PyValue) : DunderResult :=
  match Time.ltMeth t v with
  | DunderResult.notImplementedRes => DunderResult.notImplementedRes
  | DunderResult.boolRes b => DunderResult.boolRes (b || timeEqOutcome t v)

/-- Model of the derived `__gt__` (`_gt_from_lt`): pass
`NotImplemented` through, else `not (self < other) and self != other`. -/
def Time.gtMeth (t : Time) (v : PyValue) : DunderResult :=
  match Time.ltMeth t v with
  | DunderResult.notImplementedRes => DunderResult.notImplementedRes
  | DunderResult.boolRes b => DunderResult.boolRes (!b && !(timeEqOutcome t v))

/-- Model of the derived `__ge__` (`_ge_from_lt`): pass
`NotImplemented` through, else `not (self < other)`. -/
def Time.geMeth (t : Time) (v : PyValue) : DunderResult :=
  match Time.ltMeth t v with
  | DunderResult.notImplementedRes => DunderResult.notImplementedRes
  | DunderResult.boolRes b => DunderResult.boolRes (!b)

/-- Outcome of an ordering operator at the language level: a boolean,
or the `TypeError` Python raises when both operands' dunders answer
`NotImplemented` (the builtin right-hand types in `PyValue` never order
themselves against a `Time`). -/
inductive OrdOutcome where
  | boolOut (b : Bool)
  | typeErrorOut
deriving DecidableEq

/-- Map a dunder result to the language-level ordering outcome. -/
def ordOutcome (r : DunderResult) : OrdOutcome :=
  match r with
  | DunderResult.boolRes b => OrdOutcome.boolOut b
  | DunderResult.notImplementedRes => OrdOutcome.typeErrorOut

/-- Validation of all three components in bounds lets `__init__` build
the instance with the combined second count. -/
lemma init_ok (h m s : Int) (hh : 0 ≤ h ∧ h ≤ 23) (hm : 0 ≤ m ∧ m ≤ 59)
    (hs : 0 ≤ s ∧ s ≤ 59) :
    Time.init h m s = Except.ok ⟨h * 3600 + m * 60 + s⟩ := by
  simp [Time.init, Time.validate_range, hh.1, hh.2, hm.1, hm.2, hs.1, hs.2]

/-- Out-of-range hours are reported first by `__init__`. -/
lemma init_err_hours (h m s : Int) (hh : ¬(0 ≤ h ∧ h ≤ 23)) :
    Time.init h m s = Except.error (Err.range "hours" 0 23 h) := by
  simp [Time.init, Time.validate_range, hh]

/-- With hours in range, out-of-range minutes are reported next. -/
lemma init_err_minutes (h m s : Int) (hh : 0 ≤ h ∧ h ≤ 23)
    (hm : ¬(0 ≤ m ∧ m ≤ 59)) :
    Time.init h m s = Except.error (Err.range "minutes" 0 59 m) := by
  simp [Time.init, Time.validate_range, hh.1, hh.2, hm]

/-- With hours and minutes in range, out-of-range seconds are reported
last. -/
lemma init_err_seconds (h m s : Int) (hh : 0 ≤ h ∧ h ≤ 23)
    (hm : 0 ≤ m ∧ m ≤ 59) (hs : ¬(0 ≤ s ∧ s ≤ 59)) :
    Time.init h m s = Except.error (Err.range "seconds" 0 59 s) := by
  simp [Time.init, Time.validate_range, hh.1, hh.2, hm.1, hm.2, hs]

/-- On an in-range second count, `from_seconds` rebuilds exactly that
count: the decomposition into components and recombination by
`__init__` is the identity. -/
lemma from_seconds_ok (x : Int) (h0 : 0 ≤ x) (h1 : x < 86400) :
    Time.from_seconds x = Except.ok ⟨x⟩ := by
  have e1 : Time.init (x / 3600) (x % 3600 / 60) (x % 60) =
      Except.ok ⟨x / 3600 * 3600 + x % 3600 / 60 * 60 + x % 60⟩ :=
    init_ok _ _ _ ⟨by omega, by omega⟩ ⟨by omega, by omega⟩ ⟨by omega, by omega⟩
  have e2 : x / 3600 * 3600 + x % 3600 / 60 * 60 + x % 60 = x := by omega
  rw [e2] at e1
  simp [Time.from_seconds, h0, h1, e1]

/-- C2: for all integers h, m, s, `make(h, m, s)` succeeds and yields a
time whose `total_seconds` is `h*3600 + m*60 + s` exactly when h is in
[0,23], m in [0,59] and s in [0,59]; otherwise it fails with a range
error naming the offending field, its bounds and the supplied value,
checking hours, then minutes, then seconds, so the first violation in
that order is the one reported. -/
theorem make_validates_in_order (h m s : Int) :
    ((0 ≤ h ∧ h ≤ 23) → (0 ≤ m ∧ m ≤ 59) → (0 ≤ s ∧ s ≤ 59) →
      Time.init h m s = Except.ok ⟨h * 3600 + m * 60 + s⟩ ∧
      Time.to_seconds ⟨h * 3600 + m * 60 + s⟩ = h * 3600 + m * 60 + s) ∧
    (¬(0 ≤ h ∧ h ≤ 23) →
      Time.init h m s = Except.error (Err.range "hours" 0 23 h)) ∧
    ((0 ≤ h ∧ h ≤ 23) → ¬(0 ≤ m ∧ m ≤ 59) →
      Time.init h m s = Except.error (Err.range "minutes" 0 59 m)) ∧
    ((0 ≤ h ∧ h ≤ 23) → (0 ≤ m ∧ m ≤ 59) → ¬(0 ≤ s ∧ s ≤ 59) →
      Time.init h m s = Except.error (Err.range "seconds" 0 59 s)) := by
  refine ⟨fun hh hm hs => ⟨init_ok h m s hh hm hs, rfl⟩,
    fun hh => init_err_hours h m s hh,
    fun hh hm => init_err_minutes h m s hh hm,
    fun hh hm hs => init_err_seconds h m s hh hm hs⟩

/-- Witness for C2 at in-range and out-of-range concrete inputs. -/
theorem make_validates_in_order_witness :
    (Time.init 1 2 3 = Except.ok ⟨3723⟩ ∧
      Time.to_seconds ⟨3723⟩ = 3723) ∧
    Time.init 24 0 0 = Except.error (Err.range "hours" 0 23 24) ∧
    Time.init 0 60 0 = Except.error (Err.range "minutes" 0 59 60) ∧
    Time.init 0 0 60 = Except.error (Err.range "seconds" 0 59 60) :=
  ⟨(make_validates_in_order 1 2 3).1 (by decide) (by decide) (by decide),
    (make_validates_in_order 24 0 0).2.1 (by decide),
    (make_validates_in_order 0 60 0).2.2.1 (by decide) (by decide),
    (make_validates_in_order 0 0 60).2.2.2 (by decide) (by decide) (by decide)⟩

/-- C3: `fromSeconds(x)` succeeds with `to_seconds` returning exactly x
precisely when `0 <= x < 86400`, failing with a range error otherwise;
and on success the component tuple is
`(x / 3600, x % 3600 / 60, x % 60)`. -/
theorem from_seconds_spec (x : Int) :
    (0 ≤ x ∧ x < 86400 →
      Time.from_seconds x = Except.ok ⟨x⟩ ∧
      Time.to_seconds ⟨x⟩ = x ∧
      Time.to_tuple ⟨x⟩ = (x / 3600, x % 3600 / 60, x % 60)) ∧
    (¬(0 ≤ x ∧ x < 86400) →
      Time.from_seconds x = Except.error (Err.range "total seconds" 0 86399 x)) := by
  constructor
  · intro hx
    exact ⟨from_seconds_ok x hx.1 hx.2, rfl, rfl⟩
  · intro hx
    simp [Time.from_seconds, hx]

/-- Witness for C3 at an in-range and an out-of-range second count. -/
theorem from_seconds_spec_witness :
    (Time.from_seconds 18000 = Except.ok ⟨18000⟩ ∧
      Time.to_seconds ⟨18000⟩ = 18000 ∧
      Time.to_tuple ⟨18000⟩ = (5, 0, 0)) ∧
    Time.from_seconds 86400 = Except.error (Err.range "total seconds" 0 86399 86400) :=
  ⟨(from_seconds_spec 18000).1 (by decide), (from_seconds_spec 86400).2 (by decide)⟩

/-- C4: addition of a `Time` or a plain integer always succeeds,
producing the clock-face sum `(total_seconds + other_seconds) % 86400`;
in particular `make(23,59,59) + make(0,0,1)` is `make(0,0,0)`. -/
theorem add_wraps_mod_86400 (t : Time) (o : PyValue) (n : Int)
    (ho : operandSeconds o = some n) :
    Time.add t o = Except.ok ⟨(t.total_seconds + n) % 86400⟩ ∧
    Time.add ⟨86399⟩ (PyValue.timeVal ⟨1⟩) = Time.init 0 0 0 := by
  refine ⟨?_, by rfl⟩
  cases o with
  | timeVal u =>
    obtain rfl : u.total_seconds = n := by simpa [operandSeconds] using ho
    exact from_seconds_ok _ (by omega) (by omega)
  | intVal k =>
    obtain rfl : k = n := by simpa [operandSeconds] using ho
    exact from_seconds_ok _ (by omega) (by omega)
  | strVal s => simp [operandSeconds] at ho
  | noneVal => simp [operandSeconds] at ho

/-- Witness for C4: adding 3661 plain seconds to one o'clock. -/
theorem add_wraps_mod_86400_witness :
    Time.add ⟨3600⟩ (PyValue.intVal 3661) = Except.ok ⟨7261⟩ ∧
    Time.add ⟨86399⟩ (PyValue.timeVal ⟨1⟩) = Time.init 0 0 0 :=
  add_wraps_mod_86400 ⟨3600⟩ (PyValue.intVal 3661) 3661 (by rfl)

/-- C5: subtraction of a `Time` or a plain integer always succeeds with
`(total_seconds - other_seconds) % 86400` under Euclidean modulo, hence
a result in `[0, 86400)` even when the subtrahend is larger; in
particular `make(0,0,0) - make(0,0,1)` is `make(23,59,59)`. -/
theorem sub_wraps_mod_86400 (t : Time) (o : PyValue) (n : Int)
    (ho : operandSeconds o = some n) :
    Time.sub t o = Except.ok ⟨(t.total_seconds - n) % 86400⟩ ∧
    0 ≤ (t.total_seconds - n) % 86400 ∧
    (t.total_seconds - n) % 86400 < 86400 ∧
    Time.sub ⟨0⟩ (PyValue.timeVal ⟨1⟩) = Time.init 23 59 59 := by
  refine ⟨?_, by omega, by omega, by rfl⟩
  cases o with
  | timeVal u =>
    obtain rfl : u.total_seconds = n := by simpa [operandSeconds] using ho
    exact from_seconds_ok _ (by omega) (by omega)
  | intVal k =>
    obtain rfl : k = n := by simpa [operandSeconds] using ho
    exact from_seconds_ok _ (by omega) (by omega)
  | strVal s => simp [operandSeconds] at ho
  | noneVal => simp [operandSeconds] at ho

/-- Witness for C5: subtracting a larger time wraps backward through
midnight. -/
theorem sub_wraps_mod_86400_witness :
    Time.sub ⟨60⟩ (PyValue.timeVal ⟨7200⟩) = Except.ok ⟨79260⟩ ∧
    0 ≤ (79260 : Int) ∧
    (79260 : Int) < 86400 ∧
    Time.sub ⟨0⟩ (PyValue.timeVal ⟨1⟩) = Time.init 23 59 59 :=
  sub_wraps_mod_86400 ⟨60⟩ (PyValue.timeVal ⟨7200⟩) 7200 (by rfl)

/-- C10: the zero-argument construction (all components defaulted to 0)
succeeds and is midnight: second count 0, components `(0, 0, 0)`,
rendered as `"00:00:00"`. -/
theorem default_ctor_midnight :
    Time.initDefault = Except.ok ⟨0⟩ ∧
    Time.to_seconds ⟨0⟩ = 0 ∧
    Time.to_tuple ⟨0⟩ = (0, 0, 0) ∧
    Time.toString ⟨0⟩ = "00:00:00" :=
  ⟨rfl, rfl, rfl, rfl⟩

/-- C8: two times are equal exactly when their second counts agree, and
the `==` protocol against any non-`Time` value evaluates to a plain
`False` — the dunder returns `NotImplemented`, never raising. -/
theorem eq_iff_total_seconds (t u : Time) (v : PyValue)
    (hv : PyValue.isTimeVal v = false) :
    (timeEqOutcome t (PyValue.timeVal u) = true ↔
      t.total_seconds = u.total_seconds) ∧
    timeEqOutcome t v = false ∧
    Time.eqMeth t v = DunderResult.notImplementedRes := by
  refine ⟨by simp [timeEqOutcome, Time.eqMeth], ?_, ?_⟩ <;>
    cases v <;> simp_all [timeEqOutcome, Time.eqMeth, PyValue.isTimeVal]

/-- Witness for C8: `make(5,0,0) == fromSeconds(18000)` holds, and a
comparison against an integer is plainly unequal. -/
theorem eq_iff_total_seconds_witness :
    (timeEqOutcome ⟨18000⟩ (PyValue.timeVal ⟨18000⟩) = true ↔
      Time.total_seconds ⟨18000⟩ = Time.total_seconds ⟨18000⟩) ∧
    timeEqOutcome ⟨18000⟩ (PyValue.intVal 18000) = false ∧
    Time.eqMeth ⟨18000⟩ (PyValue.intVal 18000) = DunderResult.notImplementedRes :=
  eq_iff_total_seconds ⟨18000⟩ ⟨18000⟩ (PyValue.intVal 18000) (by decide)

/-- Boolean form of: less-than or equal-to is at-most, on `Int`. -/
lemma decide_lt_or_eq (a b : Int) :
    (decide (a < b) || decide (a = b)) = decide (a ≤ b) := by
  by_cases h : a < b <;> by_cases h2 : a = b <;> simp_all <;> omega

/-- Boolean form of: not-less and not-equal is greater, on `Int`. -/
lemma decide_not_lt_not_eq (a b : Int) :
    (!decide (a < b) && !decide (a = b)) = decide (b < a) := by
  by_cases h : a < b
  · simp [h]
    omega
  · by_cases h2 : a = b
    · simp [h, h2]
    · simp [h, h2]
      omega

/-- Boolean form of: not-less is at-least, on `Int`. -/
lemma decide_not_lt (a b : Int) :
    (!decide (a < b)) = decide (b ≤ a) := by
  by_cases h : a < b
  · simp [h]
  · simp [h]
    omega

/-- C9: the four ordering operators (`__lt__` from the source, and
`__le__`, `__gt__`, `__ge__` derived by `functools.total_ordering`)
realise the total order by ascending `total_seconds` on `Time`
operands, and against a non-`Time` operand each answers
`NotImplemented`, which the language surfaces as a `TypeError`
("unorderable"), not as a boolean. -/
theorem ordering_total_by_total_seconds (t u : Time) (v : PyValue)
    (hv : PyValue.isTimeVal v = false) :
    Time.ltMeth t (PyValue.timeVal u) =
      DunderResult.boolRes (decide (t.total_seconds < u.total_seconds)) ∧
    Time.leMeth t (PyValue.timeVal u) =
      DunderResult.boolRes (decide (t.total_seconds ≤ u.total_seconds)) ∧
    Time.gtMeth t (PyValue.timeVal u) =
      DunderResult.boolRes (decide (u.total_seconds < t.total_seconds)) ∧
    Time.geMeth t (PyValue.timeVal u) =
      DunderResult.boolRes (decide (u.total_seconds ≤ t.total_seconds)) ∧
    ordOutcome (Time.ltMeth t v) = OrdOutcome.typeErrorOut ∧
    ordOutcome (Time.leMeth t v) = OrdOutcome.typeErrorOut ∧
    ordOutcome (Time.gtMeth t v) = OrdOutcome.typeErrorOut ∧
    ordOutcome (Time.geMeth t v) = OrdOutcome.typeErrorOut := by
  refine ⟨rfl, ?_, ?_, ?_, ?_, ?_, ?_, ?_⟩
  · simp only [Time.leMeth, Time.ltMeth, timeEqOutcome, Time.eqMeth,
      decide_lt_or_eq]
  · simp only [Time.gtMeth, Time.ltMeth, timeEqOutcome, Time.eqMeth,
      decide_not_lt_not_eq]
  · simp only [Time.geMeth, Time.ltMeth, timeEqOutcome, Time.eqMeth,
      decide_not_lt]
  · cases v <;> simp_all [Time.ltMeth, ordOutcome, PyValue.isTimeVal]
  · cases v <;> simp_all [Time.leMeth, Time.ltMeth, ordOutcome, PyValue.isTimeVal]
  · cases v <;> simp_all [Time.gtMeth, Time.ltMeth, ordOutcome, PyValue.isTimeVal]
  · cases v <;> simp_all [Time.geMeth, Time.ltMeth, ordOutcome, PyValue.isTimeVal]

/-- Witness for C9: `make(1,0,0) < make(2,0,0)` at the dunder level, and
ordering against a string is a `TypeError` outcome. -/
theorem ordering_total_by_total_seconds_witness :
    Time.ltMeth ⟨3600⟩ (PyValue.timeVal ⟨7200⟩) =
      DunderResult.boolRes (decide (Time.total_seconds ⟨3600⟩ < Time.total_seconds ⟨7200⟩)) ∧
    Time.leMeth ⟨3600⟩ (PyValue.timeVal ⟨7200⟩) =
      DunderResult.boolRes (decide (Time.total_seconds ⟨3600⟩ ≤ Time.total_seconds ⟨7200⟩)) ∧
    Time.gtMeth ⟨3600⟩ (PyValue.timeVal ⟨7200⟩) =
      DunderResult.boolRes (decide (Time.total_seconds ⟨7200⟩ < Time.total_seconds ⟨3600⟩)) ∧
    Time.geMeth ⟨3600⟩ (PyValue.timeVal ⟨7200⟩) =
      DunderResult.boolRes (decide (Time.total_seconds ⟨7200⟩ ≤ Time.total_seconds ⟨3600⟩)) ∧
    ordOutcome (Time.ltMeth ⟨3600⟩ (PyValue.strVal "x")) = OrdOutcome.typeErrorOut ∧
    ordOutcome (Time.leMeth ⟨3600⟩ (PyValue.strVal "x")) = OrdOutcome.typeErrorOut ∧
    ordOutcome (Time.gtMeth ⟨3600⟩ (PyValue.strVal "x")) = OrdOutcome.typeErrorOut ∧
    ordOutcome (Time.geMeth ⟨3600⟩ (PyValue.strVal "x")) = OrdOutcome.typeErrorOut :=
  ordering_total_by_total_seconds ⟨3600⟩ ⟨7200⟩ (PyValue.strVal "x") (by decide)

/-- Append distributes over the character list of a string. -/
lemma str_toList_append (a b : String) :
    (a ++ b).toList = a.toList ++ b.toList :=
  String.data_append a b

/-- An all-digit field contains no colon. -/
lemma no_colon_of_all_digits {l : List Char} (h : l.all Char.isDigit = true) :
    ':' ∉ l := by
  intro hm
  have := List.all_eq_true.mp h _ hm
  simp [Char.isDigit] at this

/-- Splitting a separator-free field yields just that field. -/
lemma splitCh_of_not_mem (sep : Char) (a : List Char) (ha : sep ∉ a) :
    splitCh sep a = [a] := by
  induction a with
  | nil => rfl
  | cons c cs ih =>
    have hc : ¬ c = sep := fun h => ha (h ▸ List.mem_cons_self c cs)
    have hcs : sep ∉ cs := fun h => ha (List.mem_cons_of_mem c h)
    simp [splitCh, hc, ih hcs]

/-- Splitting peels off a leading separator-free field. -/
lemma splitCh_append (sep : Char) (a rest : List Char) (ha : sep ∉ a) :
    splitCh sep (a ++ sep :: rest) = a :: splitCh sep rest := by
  induction a with
  | nil => simp [splitCh]
  | cons c cs ih =>
    have hc : ¬ c = sep := fun h => ha (h ▸ List.mem_cons_self c cs)
    have hcs : sep ∉ cs := fun h => ha (List.mem_cons_of_mem c h)
    simp [splitCh, hc, ih hcs]

/-- All sixty possible two-digit fields check out. -/
lemma fmtCheck_lt60 : ∀ k : Fin 60, fmtCheck k.val = true := by decide

/-- Specification of the `f"{n:02d}"` model for a component value in
`[0, 60)`: exactly two characters, all digits, with decimal value `n`,
and `int()` reads it back as `n`. -/
lemma format02d_spec (n : Int) (h0 : 0 ≤ n) (h1 : n < 60) :
    (format02d n).toList.length = 2 ∧
    (format02d n).toList.all Char.isDigit = true ∧
    digitsValue (format02d n).toList = n.toNat ∧
    pyParseIntL (format02d n).toList = some n := by
  obtain ⟨k, rfl⟩ := Int.eq_ofNat_of_zero_le h0
  have hk : k < 60 := by exact_mod_cast h1
  have hc := fmtCheck_lt60 ⟨k, hk⟩
  simp only [fmtCheck, Bool.and_eq_true, beq_iff_eq] at hc
  refine ⟨hc.1.1.1, hc.1.1.2, ?_, hc.2⟩
  have h2 := hc.1.2
  simpa using h2

/-- Character-level decomposition of the rendered string
`f"{hours:02d}:{minutes:02d}:{seconds:02d}"`. -/
lemma toString_data (t : Time) :
    (Time.toString t).toList =
      (format02d (Time.hours t)).toList ++
        ':' :: ((format02d (Time.minutes t)).toList ++
          ':' :: (format02d (Time.seconds t)).toList) := by
  show (format02d (Time.hours t) ++ ":" ++ format02d (Time.minutes t) ++ ":" ++
      format02d (Time.seconds t)).toList = _
  rw [str_toList_append, str_toList_append, str_toList_append, str_toList_append]
  simp

/-- C6: `__str__` renders every valid time as exactly three two-digit
zero-padded decimal fields separated by colons, the fields carrying the
derived hours, minutes and seconds; e.g. 3661 total seconds render as
"01:01:01". -/
theorem toString_renders_two_digit_fields (t : Time) (hv : Time.valid t) :
    (∃ l1 l2 l3 : List Char,
      (Time.toString t).toList = l1 ++ ':' :: (l2 ++ ':' :: l3) ∧
      l1.length = 2 ∧ l2.length = 2 ∧ l3.length = 2 ∧
      l1.all Char.isDigit = true ∧ l2.all Char.isDigit = true ∧
      l3.all Char.isDigit = true ∧
      digitsValue l1 = (Time.hours t).toNat ∧
      digitsValue l2 = (Time.minutes t).toNat ∧
      digitsValue l3 = (Time.seconds t).toNat) ∧
    Time.toString ⟨3661⟩ = "01:01:01" := by
  have e1 : Time.hours t = t.total_seconds / 3600 := rfl
  have e2 : Time.minutes t = t.total_seconds % 3600 / 60 := rfl
  have e3 : Time.seconds t = t.total_seconds % 60 := rfl
  have h0 : 0 ≤ t.total_seconds := hv.1
  have h1 : t.total_seconds < 86400 := hv.2
  have hh := format02d_spec (Time.hours t) (by omega) (by omega)
  have hm := format02d_spec (Time.minutes t) (by omega) (by omega)
  have hs := format02d_spec (Time.seconds t) (by omega) (by omega)
  exact ⟨⟨_, _, _, toString_data t, hh.1, hm.1, hs.1, hh.2.1, hm.2.1, hs.2.1,
    hh.2.2.1, hm.2.2.1, hs.2.2.1⟩, rfl⟩

/-- Witness for C6 at 3661 total seconds. -/
theorem toString_renders_two_digit_fields_witness :
    (∃ l1 l2 l3 : List Char,
      (Time.toString ⟨3661⟩).toList = l1 ++ ':' :: (l2 ++ ':' :: l3) ∧
      l1.length = 2 ∧ l2.length = 2 ∧ l3.length = 2 ∧
      l1.all Char.isDigit = true ∧ l2.all Char.isDigit = true ∧
      l3.all Char.isDigit = true ∧
      digitsValue l1 = (Time.hours ⟨3661⟩).toNat ∧
      digitsValue l2 = (Time.minutes ⟨3661⟩).toNat ∧
      digitsValue l3 = (Time.seconds ⟨3661⟩).toNat) ∧
    Time.toString ⟨3661⟩ = "01:01:01" :=
  toString_renders_two_digit_fields ⟨3661⟩ (by decide)

/-- C7: rendering a valid time and parsing the result returns the same
value. -/
theorem from_string_toString_roundtrip (t : Time) (hv : Time.valid t) :
    Time.from_string (Time.toString t) = Except.ok t := by
  have e1 : Time.hours t = t.total_seconds / 3600 := rfl
  have e2 : Time.minutes t = t.total_seconds % 3600 / 60 := rfl
  have e3 : Time.seconds t = t.total_seconds % 60 := rfl
  have h0 : 0 ≤ t.total_seconds := hv.1
  have h1 : t.total_seconds < 86400 := hv.2
  have hh := format02d_spec (Time.hours t) (by omega) (by omega)
  have hm := format02d_spec (Time.minutes t) (by omega) (by omega)
  have hs := format02d_spec (Time.seconds t) (by omega) (by omega)
  have nc1 := no_colon_of_all_digits hh.2.1
  have nc2 := no_colon_of_all_digits hm.2.1
  have nc3 := no_colon_of_all_digits hs.2.1
  have hsplit : splitCh ':' (Time.toString t).toList =
      [(format02d (Time.hours t)).toList, (format02d (Time.minutes t)).toList,
        (format02d (Time.seconds t)).toList] := by
    rw [toString_data t, splitCh_append _ _ _ nc1, splitCh_append _ _ _ nc2,
      splitCh_of_not_mem _ _ nc3]
  have ph : pyParseIntL (format02d (Time.hours t)).data = some (Time.hours t) :=
    hh.2.2.2
  have pm : pyParseIntL (format02d (Time.minutes t)).data = some (Time.minutes t) :=
    hm.2.2.2
  have ps : pyParseIntL (format02d (Time.seconds t)).data = some (Time.seconds t) :=
    hs.2.2.2
  have hpf : parsedFields (Time.toString t) =
      some (Time.hours t, Time.minutes t, Time.seconds t) := by
    unfold parsedFields
    rw [hsplit]
    simp [ph, pm, ps]
  have hinit : Time.init (Time.hours t) (Time.minutes t) (Time.seconds t) =
      Except.ok ⟨Time.hours t * 3600 + Time.minutes t * 60 + Time.seconds t⟩ :=
    init_ok _ _ _ ⟨by omega, by omega⟩ ⟨by omega, by omega⟩ ⟨by omega, by omega⟩
  have hts : Time.hours t * 3600 + Time.minutes t * 60 + Time.seconds t =
      t.total_seconds := by omega
  rw [hts] at hinit
  simp only [Time.from_string, hpf, hinit]

/-- Witness for C7 at 12:34:56, i.e. 45296 total seconds. -/
theorem from_string_toString_roundtrip_witness :
    Time.from_string (Time.toString ⟨45296⟩) = Except.ok ⟨45296⟩ :=
  from_string_toString_roundtrip ⟨45296⟩ (by decide)

/-- Counterexample to C1 as stated: on "99:00:00" all three fields
parse, the hours field 99 is out of range, and yet the call does not
fail with a range error — it raises the same malformed-input format
error, with the range error demoted to the chained cause. -/
theorem from_string_wraps_range_error_cex :
    parsedFields "99:00:00" = some (99, 0, 0) ∧
    raisedRangeError (Time.from_string "99:00:00") = false ∧
    Time.from_string "99:00:00" =
      Except.error (Err.format (some (Err.range "hours" 0 23 99))) :=
  ⟨rfl, rfl, rfl⟩

/-- C1 (amended): when the input does not decompose into exactly three
colon-separated integer fields, `from_string` fails with the format
error and no class-level cause; when the three fields parse but one is
out of range, `from_string` still fails with the format error, carrying
the range error from component construction only as its chained cause —
so the malformed-text versus out-of-range distinction is observable in
the error data (the cause), but not in the raised error itself. -/
theorem from_string_error_reporting (s : String) :
    (parsedFields s = none → Time.from_string s = Except.error (Err.format none)) ∧
    (∀ h m sec : Int, parsedFields s = some (h, m, sec) →
      ¬((0 ≤ h ∧ h ≤ 23) ∧ (0 ≤ m ∧ m ≤ 59) ∧ (0 ≤ sec ∧ sec ≤ 59)) →
      ∃ e : Err, Time.from_string s = Except.error (Err.format (some e)) ∧
        Err.isRange e = true) := by
  constructor
  · intro hp
    simp only [Time.from_string, hp]
  · intro h m sec hp hr
    have hinit : ∃ e : Err, Time.init h m sec = Except.error e ∧
        Err.isRange e = true := by
      by_cases hh : 0 ≤ h ∧ h ≤ 23
      · by_cases hm2 : 0 ≤ m ∧ m ≤ 59
        · have hs2 : ¬(0 ≤ sec ∧ sec ≤ 59) := by tauto
          exact ⟨_, init_err_seconds h m sec hh hm2 hs2, rfl⟩
        · exact ⟨_, init_err_minutes h m sec hh hm2, rfl⟩
      · exact ⟨_, init_err_hours h m sec hh, rfl⟩
    obtain ⟨e, he, hre⟩ := hinit
    refine ⟨e, ?_, hre⟩
    simp only [Time.from_string, hp, he]

/-- Witness for C1 (amended): a two-field input fails with a bare
format error; an input with an out-of-range minutes field fails with
the format error wrapping a range error. -/
theorem from_string_error_reporting_witness :
    Time.from_string "1:2" = Except.error (Err.format none) ∧
    ∃ e : Err, Time.from_string "9:99:0" = Except.error (Err.format (some e)) ∧
      Err.isRange e = true :=
  ⟨(from_string_error_reporting "1:2").1 (by rfl),
    (from_string_error_reporting "9:99:0").2 9 99 0 (by rfl) (by decide)⟩
